import Mathlib

/-!
Shallow embedding of the Uzaif repository's streaming session manager
(the LiveModule component), the chat service and panel, and the WAV
encoder of the AudioModule, together with theorems settling the frozen
claims about them.

Times (the output audio clock, segment durations, schedule cursor) are
modelled as rationals; JS `Set<AudioBufferSourceNode>` is modelled as a
list of source identifiers; the component's `useState`/`useRef` cells
are gathered into one record, `LiveState`.
-/

/-- The `status` state of LiveModule: 'disconnected' | 'connecting' | 'connected'. -/
inductive ConnStatus
  | disconnected
  | connecting
  | connected
deriving DecidableEq, Repr

/-- The state held by LiveModule: the `useState` cells (`isConnected`,
`status`, `logs`) and the `useRef` cells (`nextStartTimeRef`,
`sourcesRef`, plus booleans standing for the media stream being live,
the audio contexts being open, the output-context ref being non-null,
and the remote session not yet closed). -/
structure LiveState where
  isConnected : Bool
  status : ConnStatus
  logs : List String
  nextStartTime : ℚ
  sources : List Nat
  streamActive : Bool
  inputCtxOpen : Bool
  outputCtxPresent : Bool
  outputCtxOpen : Bool
  sessionOpen : Bool
deriving DecidableEq, Repr

/-- `addLog`: `setLogs(prev => [msg, ...prev].slice(0, 5))`. -/
def addLog (msg : String) (s : LiveState) : LiveState :=
  { s with logs := (msg :: s.logs).take 5 }

/-- `stopAudioPlayback`: calls `stop()` on every tracked source, clears the
set, resets the cursor to zero.  The second component is the list of
sources that received a `stop()` call, in the order the code issues them. -/
def stopAudioPlayback (s : LiveState) : LiveState × List Nat :=
  ({ s with sources := [], nextStartTime := 0 }, s.sources)

/-- `disconnect`: best-effort close of the session, flips `isConnected` and
`status`, stops the media tracks, closes both audio contexts, then calls
`stopAudioPlayback`.  Every access is behind optional chaining, so the
function is total (never throws); the second component is again the list
of sources stopped. -/
def disconnect (s : LiveState) : LiveState × List Nat :=
  stopAudioPlayback
    { s with
      sessionOpen := false
      isConnected := false
      status := ConnStatus.disconnected
      streamActive := false
      inputCtxOpen := false
      outputCtxOpen := false }

/-- The `onclose` callback: `addLog("Session Closed"); disconnect();`. -/
def oncloseHandler (s : LiveState) : LiveState × List Nat :=
  disconnect (addLog "Session Closed" s)

/-- The `onerror` callback: logs the error message and calls `disconnect()`. -/
def onerrorHandler (s : LiveState) : LiveState × List Nat :=
  disconnect (addLog "Session Error (check console)" s)

/-- `playAudio`, handling one incoming audio segment: guarded by the
output-context ref being non-null; sets the cursor to
`max(nextStartTime, currentTime)`, starts the decoded source at that
cursor value, advances the cursor by the segment's duration and tracks
the source.  `now` is the output clock's `currentTime` and `dur` the
decoded buffer's duration; the second component is the scheduled start
time (`none` when the guard returned early). -/
def playAudio (s : LiveState) (now dur : ℚ) (srcId : Nat) : LiveState × Option ℚ :=
  if s.outputCtxPresent = false then (s, none)
  else
    let start := max s.nextStartTime now
    ({ s with nextStartTime := start + dur, sources := s.sources ++ [srcId] }, some start)

/-- The `onended` handler registered by `playAudio`:
`sourcesRef.current.delete(source)`. -/
def onSourceEnded (s : LiveState) (srcId : Nat) : LiveState :=
  { s with sources := s.sources.erase srcId }

/-- A run of `playAudio` over a list of incoming segments, each given as
(output-clock time at arrival, duration, source id); returns the final
state and the list of scheduled start times. -/
def playSeq (s : LiveState) : List (ℚ × ℚ × Nat) → LiveState × List ℚ
  | [] => (s, [])
  | (now, dur, i) :: rest =>
    let r := playAudio s now dur i
    let r2 := playSeq r.1 rest
    (r2.1, (match r.2 with | some t => [t] | none => []) ++ r2.2)

/-- The state of LiveModule right after the `onopen` callback has run:
connected, both contexts open, media stream live, cursor zero, no
tracked sources. -/
def connectedLive : LiveState :=
  { isConnected := true
    status := ConnStatus.connected
    logs := []
    nextStartTime := 0
    sources := []
    streamActive := true
    inputCtxOpen := true
    outputCtxPresent := true
    outputCtxOpen := true
    sessionOpen := true }

/-- One tick of the `setInterval` callback installed by
`startVideoStreaming`.  The guard is
`if (!ctx || !videoRef.current || status !== 'connected')`, where `status`
is the component binding captured by the callback's closure — the value
`status` had in the render that created `startVideoStreaming` (the same
render whose `connect` installed the callbacks), NOT the live state at
tick time.  On a true guard the callback clears its own interval and
returns without capturing a frame.  Result: (interval still alive,
frames captured and sent by this tick). -/
def videoTick (capturedStatus : ConnStatus) (ctxPresent videoPresent : Bool) :
    Bool × Nat :=
  if ctxPresent = false ∨ videoPresent = false ∨ capturedStatus ≠ ConnStatus.connected then
    (false, 0)
  else
    (true, 1)

/-- Outcome of the `session.sendRealtimeInput` call for one captured audio
chunk. -/
inductive SendOutcome
  | ok
  | fail
deriving DecidableEq, Repr

/-- The continuation queued by `onaudioprocess`:
`sessionPromiseRef.current?.then(session => session.sendRealtimeInput({ media: pcmBlob }))`.
No rejection handler is attached and the continuation writes no state
cell, so whether the send succeeds or fails the component state is left
untouched: a failing send becomes an unhandled promise rejection, which
does not propagate into the audio callback and triggers no teardown. -/
def sendChunkContinuation (s : LiveState) (outcome : SendOutcome) : LiveState :=
  match outcome with
  | SendOutcome.ok => s
  | SendOutcome.fail => s

/-- Projection of `LiveState` onto the session state proper — the data
model of the session manager (connection state, playback cursor, active
sources, owned resources), leaving out the UI log list. -/
structure SessionView where
  isConnected : Bool
  status : ConnStatus
  nextStartTime : ℚ
  sources : List Nat
  streamActive : Bool
  inputCtxOpen : Bool
  outputCtxPresent : Bool
  outputCtxOpen : Bool
  sessionOpen : Bool
deriving DecidableEq, Repr

/-- Forget the log list of a `LiveState`. -/
def LiveState.view (s : LiveState) : SessionView :=
  { isConnected := s.isConnected
    status := s.status
    nextStartTime := s.nextStartTime
    sources := s.sources
    streamActive := s.streamActive
    inputCtxOpen := s.inputCtxOpen
    outputCtxPresent := s.outputCtxPresent
    outputCtxOpen := s.outputCtxOpen
    sessionOpen := s.sessionOpen }

/-! ## Chat service (sendChatMessage) and chat panel toggles -/

/-- `ChatModelType` from types.ts. -/
inductive ChatModelType
  | pro
  | flashSearch
  | flashLite
deriving DecidableEq, Repr

/-- The string value of each `ChatModelType` enum member. -/
def ChatModelType.modelName : ChatModelType → String
  | ChatModelType.pro => "gemini-3-pro-preview"
  | ChatModelType.flashSearch => "gemini-3-flash-preview"
  | ChatModelType.flashLite => "gemini-flash-lite-latest"

/-- Message role: 'user' | 'model'. -/
inductive ChatRole
  | user
  | model
deriving DecidableEq, Repr

/-- A grounding web source: title and uri. -/
structure WebSource where
  title : String
  uri : String
deriving DecidableEq, Repr

/-- `ChatMessage` from types.ts. -/
structure ChatMessageT where
  role : ChatRole
  text : String
  images : Option (List String)
  videos : Option (List String)
  isThinking : Option Bool
  timestamp : ℤ
  groundingUrls : Option (List WebSource)
deriving DecidableEq, Repr

/-- One element of the `parts` array built by `sendChatMessage`. -/
inductive ReqPart
  | text (s : String)
  | inlineData (mimeType data : String)
deriving DecidableEq, Repr

/-- The `config` object assembled by `sendChatMessage`. -/
structure ChatConfig where
  systemInstruction : Option String
  thinkingBudget : Option Nat
  googleSearchTool : Bool
deriving DecidableEq, Repr

/-- The request handed to `ai.models.generateContent`. -/
structure ChatRequest where
  model : String
  parts : List ReqPart
  config : ChatConfig
deriving DecidableEq, Repr

/-- The request-construction part of `sendChatMessage`: model-name and
config selection, then `parts = [{text: message}]` followed by one
`inlineData` part per image and per video.  The `history` argument is
received but never read (the code sends only the current message). -/
def buildChatRequest (modelType : ChatModelType) (message : String)
    (history : List ChatMessageT) (images videos : List String)
    (isThinkingMode : Bool) (systemInstruction : Option String) : ChatRequest :=
  let modelName := if isThinkingMode then "gemini-3-pro-preview" else modelType.modelName
  let config : ChatConfig :=
    { systemInstruction := systemInstruction
      thinkingBudget := if isThinkingMode then some 32768 else none
      googleSearchTool :=
        if isThinkingMode then false
        else if modelType = ChatModelType.flashSearch then true else false }
  let parts : List ReqPart :=
    ReqPart.text message ::
      (images.map fun img => ReqPart.inlineData "image/jpeg" img) ++
        (videos.map fun vid => ReqPart.inlineData "video/mp4" vid)
  { model := modelName, parts := parts, config := config }

/-- The fields of `GenerateContentResponse` that `sendChatMessage` reads. -/
structure ApiResponse where
  groundingWebs : Option (List (Option WebSource))
  text : Option String
deriving DecidableEq, Repr

/-- The response value of `sendChatMessage`. -/
structure ChatResult where
  text : String
  groundingUrls : Option (List WebSource)
deriving DecidableEq, Repr

/-- `sendChatMessage`, with the remote call abstracted as a function `api`
from the constructed request to the response: builds the request, issues
it, then maps `groundingChunks` to their `web` field filtering out the
absent ones, and returns `response.text || "No text response generated."`
(the JS `||` also replaces an empty string). -/
def sendChatMessage (api : ChatRequest → ApiResponse) (modelType : ChatModelType)
    (message : String) (history : List ChatMessageT) (images videos : List String)
    (isThinkingMode : Bool) (systemInstruction : Option String) : ChatResult :=
  let response :=
    api (buildChatRequest modelType message history images videos isThinkingMode
        systemInstruction)
  { text :=
      match response.text with
      | some t => if t = "" then "No text response generated." else t
      | none => "No text response generated."
    groundingUrls := response.groundingWebs.map fun webs => webs.filterMap id }

/-- The three feature-toggle `useState` cells of ChatModule. -/
structure ChatToggles where
  useSearch : Bool
  useThinking : Bool
  useFast : Bool
deriving DecidableEq, Repr

/-- The Reasoning button's onClick:
`setUseThinking(!useThinking); if (!useThinking) { setUseFast(false); setUseSearch(false); }`
(`useThinking` being the value at the rendering that produced the handler). -/
def clickReasoning (s : ChatToggles) : ChatToggles :=
  let s1 := { s with useThinking := !s.useThinking }
  if !s.useThinking then { s1 with useFast := false, useSearch := false } else s1

/-- The Search button's onClick:
`setUseSearch(!useSearch); if (!useSearch) { setUseFast(false); setUseThinking(false); }`. -/
def clickSearch (s : ChatToggles) : ChatToggles :=
  let s1 := { s with useSearch := !s.useSearch }
  if !s.useSearch then { s1 with useFast := false, useThinking := false } else s1

/-- The Fast button's onClick:
`setUseFast(!useFast); if (!useFast) { setUseThinking(false); setUseSearch(false); }`. -/
def clickFast (s : ChatToggles) : ChatToggles :=
  let s1 := { s with useFast := !s.useFast }
  if !s.useFast then { s1 with useThinking := false, useSearch := false } else s1

/-- At most one of the three toggles is on. -/
def atMostOneToggle (s : ChatToggles) : Prop :=
  (s.useThinking && s.useSearch) = false ∧
    (s.useThinking && s.useFast) = false ∧
      (s.useSearch && s.useFast) = false

instance (s : ChatToggles) : Decidable (atMostOneToggle s) := by
  unfold atMostOneToggle
  infer_instance

/-! ## audioBufferToWav (AudioModule helper) -/

/-- The parts of a web-audio `AudioBuffer` read by `audioBufferToWav`:
channel count, frame count, sample rate, and the per-channel sample data
(`channelData ch pos` is `buffer.getChannelData(ch)[pos]`, a JS number
modelled as a rational). -/
structure AudioBufferModel where
  numberOfChannels : Nat
  length : Nat
  sampleRate : Nat
  channelData : Nat → Nat → ℚ

/-- Store one byte at index `i` of the byte array (out-of-range writes
cannot occur in `audioBufferToWav`; `List.set` leaves the list unchanged
there). -/
def setByte (arr : List Nat) (i b : Nat) : List Nat :=
  arr.set i b

/-- `view.setUint16(p, v, true)`: two bytes, little endian. -/
def setUint16At (arr : List Nat) (p v : Nat) : List Nat :=
  setByte (setByte arr p (v % 256)) (p + 1) (v / 256 % 256)

/-- `view.setUint32(p, v, true)`: four bytes, little endian. -/
def setUint32At (arr : List Nat) (p v : Nat) : List Nat :=
  setByte
    (setByte
      (setByte (setByte arr p (v % 256)) (p + 1) (v / 256 % 256))
      (p + 2) (v / 65536 % 256))
    (p + 3) (v / 16777216 % 256)

/-- `view.setInt16(p, z, true)`: the two's-complement 16-bit image of `z`,
little endian. -/
def setInt16At (arr : List Nat) (p : Nat) (z : ℤ) : List Nat :=
  let w := (z % 65536).toNat
  setByte (setByte arr p (w % 256)) (p + 1) (w / 256)

/-- JS `| 0` on the values arising in `audioBufferToWav` (all within
32-bit range): truncation toward zero. -/
def ratTrunc (q : ℚ) : ℤ :=
  if q < 0 then ⌈q⌉ else ⌊q⌋

/-- `Math.max(-1, Math.min(1, x))`: clamp a sample to [-1, 1]. -/
def clampSample (x : ℚ) : ℚ :=
  max (-1) (min 1 x)

/-- `(0.5 + sample < 0 ? sample * 32768 : sample * 32767) | 0`: scale a
clamped sample to a signed 16-bit integer. -/
def scaleSample (s : ℚ) : ℤ :=
  if 1 / 2 + s < 0 then ratTrunc (s * 32768) else ratTrunc (s * 32767)

/-- The WAVE header written by `audioBufferToWav` through its
`setUint16`/`setUint32` helpers, which advance `pos` from 0 to 44; the
comment on each write names the field from the source.  `length` is the
allocated byte count `buffer.length * numOfChan * 2 + 44`. -/
def wavHeader (buffer : AudioBufferModel) (arr : List Nat) : List Nat :=
  let c := buffer.numberOfChannels
  let length := buffer.length * c * 2 + 44
  let a1 := setUint32At arr 0 0x46464952 -- "RIFF"
  let a2 := setUint32At a1 4 (length - 8) -- file length - 8
  let a3 := setUint32At a2 8 0x45564157 -- "WAVE"
  let a4 := setUint32At a3 12 0x20746d66 -- "fmt " chunk
  let a5 := setUint32At a4 16 16 -- length = 16
  let a6 := setUint16At a5 20 1 -- PCM (uncompressed)
  let a7 := setUint16At a6 22 c -- numOfChan
  let a8 := setUint32At a7 24 buffer.sampleRate
  let a9 := setUint32At a8 28 (buffer.sampleRate * 2 * c) -- avg. bytes/sec
  let a10 := setUint16At a9 32 (c * 2) -- block-align
  let a11 := setUint16At a10 34 16 -- 16-bit
  let a12 := setUint32At a11 36 0x61746164 -- "data" chunk
  setUint32At a12 40 (length - 40 - 4) -- chunk length = length - pos - 4 at pos 40

/-- The 16-bit samples produced by the interleaving loop, in write order.
The loop is `while (pos < buffer.length)` with `pos` left at 44 by the
header writes, reading `channels[i][pos]`: it visits frames 44 ..
buffer.length - 1 (and no frame at all when buffer.length <= 44), and for
each frame clamps then scales every channel sample. -/
def sampleWrites (buffer : AudioBufferModel) : List ℤ :=
  (List.range' 44 (buffer.length - 44)).flatMap fun pos =>
    (List.range buffer.numberOfChannels).map fun i =>
      scaleSample (clampSample (buffer.channelData i pos))

/-- The interleaving loop's writes into the byte array: the k-th produced
sample goes to `view.setInt16(44 + offset)` with `offset = 2 * k`. -/
def writeSamples (buffer : AudioBufferModel) (arr : List Nat) : List Nat :=
  (sampleWrites buffer).enum.foldl (fun a kz => setInt16At a (44 + 2 * kz.1) kz.2) arr

/-- `audioBufferToWav`: allocate `buffer.length * numOfChan * 2 + 44`
zeroed bytes (a fresh `ArrayBuffer`), write the WAVE header, then run the
interleaving loop; the allocated buffer is returned. -/
def audioBufferToWav (buffer : AudioBufferModel) : List Nat :=
  writeSamples buffer
    (wavHeader buffer
      (List.replicate (buffer.length * buffer.numberOfChannels * 2 + 44) 0))

/-! ## Helper lemmas -/

lemma length_setByte (arr : List Nat) (i b : Nat) :
    (setByte arr i b).length = arr.length := by
  simp [setByte]

lemma length_setUint16At (arr : List Nat) (p v : Nat) :
    (setUint16At arr p v).length = arr.length := by
  simp [setUint16At, length_setByte]

lemma length_setUint32At (arr : List Nat) (p v : Nat) :
    (setUint32At arr p v).length = arr.length := by
  simp [setUint32At, length_setByte]

lemma length_setInt16At (arr : List Nat) (p : Nat) (z : ℤ) :
    (setInt16At arr p z).length = arr.length := by
  simp [setInt16At, length_setByte]

lemma length_wavHeader (buffer : AudioBufferModel) (arr : List Nat) :
    (wavHeader buffer arr).length = arr.length := by
  simp [wavHeader, length_setUint16At, length_setUint32At]

lemma length_foldl_setInt16 (l : List (Nat × ℤ)) (arr : List Nat) :
    (l.foldl (fun a kz => setInt16At a (44 + 2 * kz.1) kz.2) arr).length =
      arr.length := by
  induction l generalizing arr with
  | nil => rfl
  | cons hd tl ih => simp [List.foldl_cons, ih, length_setInt16At]

lemma length_writeSamples (buffer : AudioBufferModel) (arr : List Nat) :
    (writeSamples buffer arr).length = arr.length := by
  simp [writeSamples, length_foldl_setInt16]

lemma ratTrunc_le_of_le {q : ℚ} {n : ℤ} (h : q ≤ (n : ℚ)) : ratTrunc q ≤ n := by
  unfold ratTrunc
  split
  · exact Int.ceil_le.mpr h
  · calc ⌊q⌋ ≤ ⌊(n : ℚ)⌋ := Int.floor_mono h
      _ = n := Int.floor_intCast n

lemma le_ratTrunc_of_le {q : ℚ} {n : ℤ} (h : (n : ℚ) ≤ q) : n ≤ ratTrunc q := by
  unfold ratTrunc
  split
  · calc n = ⌈(n : ℚ)⌉ := (Int.ceil_intCast n).symm
      _ ≤ ⌈q⌉ := Int.ceil_mono h
  · exact Int.le_floor.mpr h

lemma clampSample_mem (x : ℚ) : -1 ≤ clampSample x ∧ clampSample x ≤ 1 := by
  unfold clampSample
  exact ⟨le_max_left _ _, max_le (by norm_num) (min_le_left _ _)⟩

lemma scaleSample_mem_int16 {s : ℚ} (h1 : -1 ≤ s) (h2 : s ≤ 1) :
    -32768 ≤ scaleSample s ∧ scaleSample s ≤ 32767 := by
  unfold scaleSample
  split
  case isTrue h =>
    constructor
    · apply le_ratTrunc_of_le
      push_cast
      linarith
    · apply ratTrunc_le_of_le
      push_cast
      linarith
  case isFalse h =>
    constructor
    · apply le_ratTrunc_of_le
      push_cast
      linarith
    · apply ratTrunc_le_of_le
      push_cast
      linarith

/-! ## Claim theorems -/

/-- C3: `stopAudioPlayback`, arriving in any state, issues a `stop()` to
every currently tracked audio source, empties the active-source set, and
resets the playback cursor to zero. -/
theorem stopAudioPlayback_resets_everything (s : LiveState) :
    (stopAudioPlayback s).2 = s.sources ∧
      (stopAudioPlayback s).1.sources = [] ∧
        (stopAudioPlayback s).1.nextStartTime = 0 :=
  ⟨rfl, rfl, rfl⟩

/-- C4: `disconnect` is a total function of the state (it never throws),
and after every call — from any state, repeated any number of times —
the status is Disconnected, the active-source set is empty, and the
playback cursor is zero; a second call does not change the state. -/
theorem disconnect_always_safe (s : LiveState) :
    (disconnect s).1.status = ConnStatus.disconnected ∧
      (disconnect s).1.isConnected = false ∧
        (disconnect s).1.sources = [] ∧
          (disconnect s).1.nextStartTime = 0 ∧
            (disconnect (disconnect s).1).1 = (disconnect s).1 :=
  ⟨rfl, rfl, rfl, rfl, rfl⟩

/-- C6: the server-close and server-error callbacks leave the session
state — connection flags, playback cursor, active-source set, owned
resources — exactly as a direct `disconnect()` call does, and issue the
same `stop()` calls; the only difference is the appended UI log line,
which is not part of the session state. -/
theorem onclose_onerror_match_disconnect (s : LiveState) :
    ((oncloseHandler s).1.view = (disconnect s).1.view ∧
        (oncloseHandler s).2 = (disconnect s).2) ∧
      (onerrorHandler s).1.view = (disconnect s).1.view ∧
        (onerrorHandler s).2 = (disconnect s).2 :=
  ⟨⟨rfl, rfl⟩, rfl, rfl⟩

/-- C7: a failure of an individual chunk send inside the audio-processing
callback is swallowed: the queued continuation attaches no rejection
handler and writes no state, so connection status, playback cursor and
active-source set are unchanged and no teardown happens, exactly as on a
successful send. -/
theorem send_failure_swallowed (s : LiveState) (o : SendOutcome) :
    sendChunkContinuation s o = s ∧
      (sendChunkContinuation s SendOutcome.fail).status = s.status ∧
        (sendChunkContinuation s SendOutcome.fail).nextStartTime = s.nextStartTime ∧
          (sendChunkContinuation s SendOutcome.fail).sources = s.sources := by
  cases o <;> exact ⟨rfl, rfl, rfl, rfl⟩

/-- C8: `sendChatMessage` is independent of its `history` argument: with
all other arguments (and the remote endpoint's behaviour) fixed, any two
history lists yield the same constructed request and the same returned
value. -/
theorem sendChatMessage_history_independent
    (api : ChatRequest → ApiResponse) (mt : ChatModelType) (msg : String)
    (h1 h2 : List ChatMessageT) (imgs vids : List String) (think : Bool)
    (sys : Option String) :
    buildChatRequest mt msg h1 imgs vids think sys =
        buildChatRequest mt msg h2 imgs vids think sys ∧
      sendChatMessage api mt msg h1 imgs vids think sys =
        sendChatMessage api mt msg h2 imgs vids think sys :=
  ⟨rfl, rfl⟩

/-- C9: starting from a chat-panel state where at most one of
useThinking, useSearch, useFast is on, each click of the Reasoning,
Search or Fast button preserves that at most one of the three is on. -/
theorem toggles_mutually_exclusive (s : ChatToggles) (h : atMostOneToggle s) :
    atMostOneToggle (clickReasoning s) ∧
      atMostOneToggle (clickSearch s) ∧ atMostOneToggle (clickFast s) := by
  rcases s with ⟨a, b, c⟩
  revert h
  cases a <;> cases b <;> cases c <;> decide

/-- Witness for C9: the invariant claim applied at the concrete state
with only useThinking on. -/
theorem toggles_mutually_exclusive_witness :
    atMostOneToggle (clickReasoning ⟨false, true, false⟩) ∧
      atMostOneToggle (clickSearch ⟨false, true, false⟩) ∧
        atMostOneToggle (clickFast ⟨false, true, false⟩) :=
  toggles_mutually_exclusive ⟨false, true, false⟩ (by decide)

/-- C10: `audioBufferToWav` returns a byte buffer of exactly
`44 + 2 * numberOfChannels * length` bytes, and every 16-bit sample
value the interleaving loop writes into the data section lies in the
signed 16-bit range [-32768, 32767], each input sample being clamped to
[-1, 1] before scaling. -/
theorem audioBufferToWav_length_and_sample_range (buffer : AudioBufferModel) :
    (audioBufferToWav buffer).length =
        44 + 2 * buffer.numberOfChannels * buffer.length ∧
      ∀ z ∈ sampleWrites buffer, -32768 ≤ z ∧ z ≤ 32767 := by
  constructor
  · rw [audioBufferToWav, length_writeSamples, length_wavHeader,
      List.length_replicate]
    ring
  · intro z hz
    simp only [sampleWrites, List.mem_flatMap, List.mem_map] at hz
    obtain ⟨pos, -, i, -, rfl⟩ := hz
    have hc := clampSample_mem (buffer.channelData i pos)
    exact scaleSample_mem_int16 hc.1 hc.2

/-- C1: each segment handled by `playAudio` is scheduled at
`max(recorded-next-start, output-clock-now)` and the cursor then advances
by exactly the segment's duration; consequently, when the next segment
arrives back-to-back (clock not past the cursor) its start time equals
the previous segment's end time; and the three segments of durations
0.5, 0.3, 0.4 arriving with the output clock at 0 are scheduled at
0.0, 0.5, 0.8 with a final cursor of 1.2. -/
theorem playAudio_gapless_schedule :
    (∀ (s : LiveState) (now dur : ℚ) (i : Nat), s.outputCtxPresent = true →
        playAudio s now dur i =
          ({ s with
              nextStartTime := max s.nextStartTime now + dur
              sources := s.sources ++ [i] },
            some (max s.nextStartTime now))) ∧
      (∀ (s : LiveState) (now dur now' dur' : ℚ) (i i' : Nat),
          s.outputCtxPresent = true →
          now' ≤ (playAudio s now dur i).1.nextStartTime →
          (playAudio (playAudio s now dur i).1 now' dur' i').2 =
            some (max s.nextStartTime now + dur)) ∧
        (playSeq connectedLive
              [(0, 1 / 2, 1), (0, 3 / 10, 2), (0, 2 / 5, 3)]).2 =
            [0, 1 / 2, 4 / 5] ∧
          (playSeq connectedLive
                [(0, 1 / 2, 1), (0, 3 / 10, 2), (0, 2 / 5, 3)]).1.nextStartTime =
              6 / 5 := by
  refine ⟨?_, ?_, ?_, ?_⟩
  · intro s now dur i h
    simp [playAudio, h]
  · intro s now dur now' dur' i i' h hle
    simp only [playAudio, h, Bool.true_eq_false, if_false] at hle ⊢
    simp only [max_eq_left hle]
  · norm_num [playSeq, playAudio, connectedLive]
  · norm_num [playSeq, playAudio, connectedLive]

/-- Witness for C1: the per-call and back-to-back parts applied to the
freshly connected state with segment durations 1 and 1. -/
theorem playAudio_gapless_schedule_witness :
    playAudio connectedLive 0 1 1 =
        ({ connectedLive with
            nextStartTime := max connectedLive.nextStartTime 0 + 1
            sources := connectedLive.sources ++ [1] },
          some (max connectedLive.nextStartTime 0)) ∧
      (playAudio (playAudio connectedLive 0 1 1).1 0 1 2).2 =
        some (max connectedLive.nextStartTime 0 + 1) :=
  ⟨playAudio_gapless_schedule.1 connectedLive 0 1 1 rfl,
    playAudio_gapless_schedule.2.1 connectedLive 0 1 0 1 1 2 rfl
      (by simp [playAudio, connectedLive])⟩

/-- C2, behaviour at the failing input: the interval callback installed by
`startVideoStreaming` tests the closure-captured `status`, which is the
value from the render that created the callbacks (never 'connected' at
click time), not the live state; so even while the live status is
Connected the very first tick clears the interval and captures zero
frames. -/
theorem videoTick_stale_status_cancels_immediately
    (renderStatus : ConnStatus) (live : LiveState)
    (hr : renderStatus ≠ ConnStatus.connected)
    (hl : live.status = ConnStatus.connected) :
    videoTick renderStatus true true = (false, 0) ∧
      live.status = ConnStatus.connected := by
  refine ⟨?_, hl⟩
  simp [videoTick, hr]

/-- Witness for C2: the captured status is 'disconnected' while the live
state is the freshly connected one. -/
theorem videoTick_stale_status_cancels_immediately_witness :
    videoTick ConnStatus.disconnected true true = (false, 0) ∧
      connectedLive.status = ConnStatus.connected :=
  videoTick_stale_status_cancels_immediately ConnStatus.disconnected connectedLive
    (by decide) rfl

/-- C5 counterexample: the claimed invariant "the cursor is ≥ the output
clock's current time, preserved by every operation" fails for
`stopAudioPlayback`: from a state with cursor 2 and the clock at 1 the
invariant holds, but after `stopAudioPlayback` the cursor is 0 < 1. -/
theorem cursor_invariant_violated_by_stop :
    ¬ (∀ (s : LiveState) (t : ℚ), t ≤ s.nextStartTime →
          t ≤ (stopAudioPlayback s).1.nextStartTime) := by
  intro hclaim
  have h2 := hclaim { connectedLive with nextStartTime := 2 } 1
    (by norm_num [connectedLive])
  norm_num [stopAudioPlayback] at h2

/-- C5 amended: immediately after each `playAudio` call the cursor is ≥
the clock time sampled by that call and ≥ the previous cursor (hence ≥
the end of the previously scheduled segment), and equals the start of the
just-scheduled segment plus its duration; `stopAudioPlayback` and
`disconnect` instead reset the cursor to zero, the `max` in the next
`playAudio` re-establishing the clock bound. -/
theorem cursor_invariant_amended :
    (∀ (s : LiveState) (now dur : ℚ) (i : Nat), 0 ≤ dur →
        s.outputCtxPresent = true →
        now ≤ (playAudio s now dur i).1.nextStartTime ∧
          s.nextStartTime ≤ (playAudio s now dur i).1.nextStartTime ∧
            (playAudio s now dur i).2 = some (max s.nextStartTime now) ∧
              (playAudio s now dur i).1.nextStartTime =
                max s.nextStartTime now + dur) ∧
      ∀ s : LiveState, (stopAudioPlayback s).1.nextStartTime = 0 ∧
          (disconnect s).1.nextStartTime = 0 := by
  constructor
  · intro s now dur i hd h
    refine ⟨?_, ?_, ?_, ?_⟩
    · simp only [playAudio, h, Bool.true_eq_false, if_false]
      exact le_trans (le_max_right _ _) (le_add_of_nonneg_right hd)
    · simp only [playAudio, h, Bool.true_eq_false, if_false]
      exact le_trans (le_max_left _ _) (le_add_of_nonneg_right hd)
    · simp [playAudio, h]
    · simp [playAudio, h]
  · intro s
    exact ⟨rfl, rfl⟩

/-- Witness for C5's amended claim: applied to the freshly connected
state with a segment of duration 1 arriving at clock time 0. -/
theorem cursor_invariant_amended_witness :
    (0 : ℚ) ≤ (playAudio connectedLive 0 1 1).1.nextStartTime ∧
      connectedLive.nextStartTime ≤ (playAudio connectedLive 0 1 1).1.nextStartTime ∧
        (playAudio connectedLive 0 1 1).2 =
            some (max connectedLive.nextStartTime 0) ∧
          (playAudio connectedLive 0 1 1).1.nextStartTime =
            max connectedLive.nextStartTime 0 + 1 :=
  cursor_invariant_amended.1 connectedLive 0 1 1 zero_le_one rfl
